import Mathlib

/-!
Verification of the DSME plugin framework core (modulebase.c): module
registry, sorted message-handler registry, message queue and dispatch.

The embedding is a direct translation of the mutable globals of
modulebase.c (`modules`, `callbacks`, `message_queue`) into an explicit
state record, with the GLib list primitives the code relies on
(`g_slist_insert_sorted_with_data`, `g_slist_find_custom`,
`g_slist_append`, `g_slist_delete_link`) modelled by their documented
list semantics.  Module code (init/fini entry points and handler
callbacks) is external to this core; its observable effect on the core
is the sequence of enqueue calls it makes, so it is modelled as a
function producing such requests.  malloc outcomes are explicit boolean
inputs.  Pointer identities are modelled as natural-number ids.
-/

set_option maxRecDepth 8000

/-- Loaded module information (struct module_t). `handle` is the dlopen
handle; `id` models the malloc-pointer identity of the record, so that two
distinct live module records never compare equal. -/
structure module_t where
  name : String
  priority : Int
  handle : Nat
  id : Nat
deriving DecidableEq, Repr

/-- Registered handler information (msg_handler_info_t). `callback` models
the handler function pointer value, with 0 standing for NULL. -/
structure msg_handler_info_t where
  msg_type : Nat
  msg_size : Nat
  owner : module_t
  callback : Nat
deriving DecidableEq, Repr

/-- Sender or recipient identity (struct endpoint_t): a module pointer and a
socket-connection pointer, either of which may be NULL (`none`). -/
structure endpoint_t where
  module : Option module_t
  conn : Option Nat
deriving DecidableEq, Repr

/-- Modelled from the spec: dsmemsg_generic_t (dsme/messages.h is not among
this repository's sources) — a fixed-size header carrying a type identifier
and two length fields, followed by the payload bytes beyond the header.
`line_size_` is the total size, `size_` the declared fixed-part size. -/
structure dsmemsg_generic_t where
  line_size_ : Nat
  size_ : Nat
  type_ : Nat
  payload : List Nat
deriving DecidableEq, Repr

/-- Modelled from the spec: sizeof the fixed message header — three 32-bit
fields: total size, declared size, type id. -/
def dsmemsg_header_size : Nat := 12

/-- Modelled from the spec: dsmemsg_id reads the message type id from its
fixed offset in the header. -/
def dsmemsg_id (m : dsmemsg_generic_t) : Nat := m.type_

/-- Queued message (queued_msg_t): sender, optional recipient module
(none = broadcast), and the owned message copy. -/
structure queued_msg_t where
  from_ : endpoint_t
  to_ : Option module_t
  data : dsmemsg_generic_t
deriving DecidableEq, Repr

/-- One handler-table entry (module_fn_info_t; modelled from the spec: the
table exposed by a module is a sequence of entries of message type, expected
size and callback, terminated by a null callback — the list holds the
entries before the terminator). -/
structure module_fn_info_t where
  msg_type : Nat
  msg_size : Nat
  callback : Nat
deriving DecidableEq, Repr

/-- Modelled from the spec: a single queue_message call made by module code
(a handler callback, module_init or module_fini): the recipient, the message
argument (none = NULL pointer), the extra bytes, and whether the two mallocs
inside queue_message succeed for this call. -/
structure EnqueueReq where
  to_ : Option module_t
  msg : Option dsmemsg_generic_t
  extra : List Nat
  alloc1 : Bool
  alloc2 : Bool
deriving DecidableEq, Repr

/-- The mutable globals of modulebase.c — the module registry `modules`, the
sorted handler list `callbacks` and the FIFO `message_queue` — plus the
externally observable effects: dlopen handles currently open, and the
broadcasts forwarded to the socket layer. -/
structure BusState where
  modules : List module_t
  callbacks : List msg_handler_info_t
  message_queue : List queued_msg_t
  open_handles : List Nat
  socket_broadcasts : List (Option dsmemsg_generic_t × List Nat)
deriving DecidableEq, Repr

/-- g_slist_insert_sorted_with_data: GLib inserts the new element before the
first existing element for which the comparison function (called with the
new element as first argument) returns a value less than or equal to zero;
if no such element exists the new element is appended at the end. -/
def g_slist_insert_sorted_with_data (l : List α) (x : α) (cmp : α → α → Int) :
    List α :=
  match l with
  | [] => [x]
  | y :: ys =>
    if cmp x y ≤ 0 then x :: y :: ys
    else y :: g_slist_insert_sorted_with_data ys x cmp

/-- sort_comparator: returns 1 when the new handler has a larger message
type, 0 when smaller; for equal types, 1 when the new handler's owner has a
larger priority, else 0. -/
def sort_comparator (handler existing : msg_handler_info_t) : Int :=
  if handler.msg_type > existing.msg_type then 1
  else if handler.msg_type < existing.msg_type then 0
  else if handler.owner.priority > existing.owner.priority then 1 else 0

/-- msg_comparator: the unsigned 32-bit difference
handler.msg_type - msg_type, which is zero exactly when the two type ids
agree as 32-bit values. g_slist_find_custom selects nodes where this is 0. -/
def msg_comparator (handler : msg_handler_info_t) (msg_type : Nat) : Int :=
  Int.ofNat ((handler.msg_type % 4294967296 +
              (4294967296 - msg_type % 4294967296)) % 4294967296)

/-- add_single_handler: allocates a registration (allocOk models the malloc
outcome; on failure returns none, i.e. -1) and inserts it into the sorted
callbacks list via g_slist_insert_sorted_with_data with sort_comparator. -/
def add_single_handler (allocOk : Bool) (msg_type msg_size : Nat)
    (callback : Nat) (owner : module_t)
    (callbacks : List msg_handler_info_t) : Option (List msg_handler_info_t) :=
  if !allocOk then none
  else some (g_slist_insert_sorted_with_data callbacks
               ⟨msg_type, msg_size, owner, callback⟩ sort_comparator)

/-- add_msghandlers: walks the module's handler table, registering each
entry; stops and reports failure (false) as soon as one add_single_handler
fails, returning the callbacks list as built so far (the C code keeps the
partially updated global list on failure). `allocs` supplies the malloc
outcome for each successive registration (missing entries mean success). -/
def add_msghandlers : List Bool → List module_fn_info_t → module_t →
    List msg_handler_info_t → Bool × List msg_handler_info_t
  | _, [], _, cbs => (true, cbs)
  | allocs, e :: es, m, cbs =>
    match add_single_handler (allocs.headD true) e.msg_type e.msg_size
        e.callback m cbs with
    | none => (false, cbs)
    | some cbs2 => add_msghandlers allocs.tail es m cbs2

/-- remove_msghandlers: removes (and frees) every registration whose owner
is the given module, in one pass over the callbacks list. -/
def remove_msghandlers (m : module_t) (cbs : List msg_handler_info_t) :
    List msg_handler_info_t :=
  cbs.filter (fun h => decide (h.owner ≠ m))

/-- The message copy built inside queue_message: the original message bytes
(header plus payload) followed by the extra bytes, with line_size_ increased
by the number of extra bytes. -/
def msg_copy (genmsg : dsmemsg_generic_t) (extra : List Nat) :
    dsmemsg_generic_t :=
  { genmsg with payload := genmsg.payload ++ extra,
                line_size_ := genmsg.line_size_ + extra.length }

/-- queue_message: returns unchanged (no-op) on a NULL message, on a message
whose line_size_ is below the fixed header size, or when either malloc
fails; otherwise appends the envelope with the extended copy to the tail of
the FIFO. -/
def queue_message (st : BusState) (from_ : endpoint_t) (to_ : Option module_t)
    (msg : Option dsmemsg_generic_t) (extra : List Nat)
    (alloc1 alloc2 : Bool) : BusState :=
  match msg with
  | none => st
  | some genmsg =>
    if genmsg.line_size_ < dsmemsg_header_size then st
    else if !alloc1 then st
    else if !alloc2 then st
    else { st with message_queue :=
             st.message_queue ++ [⟨from_, to_, msg_copy genmsg extra⟩] }

/-- The envelopes (zero or one) that a single queue_message call appends for
a given request. -/
def req_envelope (from_ : endpoint_t) (r : EnqueueReq) : List queued_msg_t :=
  match r.msg with
  | none => []
  | some genmsg =>
    if genmsg.line_size_ < dsmemsg_header_size then []
    else if !r.alloc1 then []
    else if !r.alloc2 then []
    else [⟨from_, r.to_, msg_copy genmsg r.extra⟩]

/-- Runs a sequence of queue_message calls issued by module code executing
with the given sender identity. -/
def run_reqs (from_ : endpoint_t) (reqs : List EnqueueReq) (st : BusState) :
    BusState :=
  reqs.foldl (fun s r => queue_message s from_ r.to_ r.msg r.extra
                r.alloc1 r.alloc2) st

/-- Modelled from the spec: the behaviour of a handler callback — the
enqueue calls it makes, as a function of the callback identity, the sender
endpoint passed to it, and the message it receives. -/
def HandlerBehavior : Type :=
  Nat → endpoint_t → dsmemsg_generic_t → List EnqueueReq

/-- The per-entry delivery test of handle_message: recipient is NULL
(broadcast) or the entry's owner, the message's total size is at least the
expected size, and its declared size equals the expected size exactly. -/
def deliverable (to_ : Option module_t) (msg : dsmemsg_generic_t)
    (handler : msg_handler_info_t) : Bool :=
  (decide (to_ = none) || decide (to_ = some handler.owner)) &&
  decide (handler.msg_size ≤ msg.line_size_) &&
  decide (msg.size_ = handler.msg_size)

/-- The handlers whose callbacks handle_message invokes, in list order:
repeated g_slist_find_custom with msg_comparator selects every node whose
msg_type matches the message id; each such entry is invoked if its callback
pointer is non-NULL and the delivery test passes. -/
def invoked_handlers (cbs : List msg_handler_info_t) (to_ : Option module_t)
    (msg : dsmemsg_generic_t) : List msg_handler_info_t :=
  (cbs.filter (fun h => decide (msg_comparator h (dsmemsg_id msg) = 0))).filter
    (fun h => decide (h.callback ≠ 0) && deliverable to_ msg h)

/-- handle_message: invokes each matching handler in list order; during each
callback currently_handling_module is the entry's owner, so the enqueue
calls the callback makes carry that module as sender. -/
def handle_message (beh : HandlerBehavior) (st : BusState)
    (from_ : endpoint_t) (to_ : Option module_t) (msg : dsmemsg_generic_t) :
    BusState :=
  (invoked_handlers st.callbacks to_ msg).foldl
    (fun s h => run_reqs ⟨some h.owner, none⟩ (beh h.callback from_ msg) s) st

/-- The envelopes appended to the queue by dispatching one message: the
concatenation, over the invoked handlers, of the envelopes their enqueue
requests produce. -/
def enqueued_by (beh : HandlerBehavior) (cbs : List msg_handler_info_t)
    (from_ : endpoint_t) (to_ : Option module_t) (msg : dsmemsg_generic_t) :
    List queued_msg_t :=
  (invoked_handlers cbs to_ msg).flatMap
    (fun h => (beh h.callback from_ msg).flatMap
      (req_envelope ⟨some h.owner, none⟩))

/-- process_message_queue: repeatedly pops the head envelope, dispatches it
via handle_message and releases it, until the queue is empty.  The C loop
has no bound; fuel makes the model total — none means the given fuel did not
suffice.  Returns the final state and the list of dispatched envelopes in
dispatch order. -/
def process_message_queue (beh : HandlerBehavior) :
    Nat → BusState → Option (BusState × List queued_msg_t)
  | 0, _ => none
  | fuel + 1, st =>
    match st.message_queue with
    | [] => some (st, [])
    | front :: rest =>
      let st1 := handle_message beh { st with message_queue := rest }
                   front.from_ front.to_ front.data
      match process_message_queue beh fuel st1 with
      | none => none
      | some (st2, tr) => some (st2, front :: tr)

/-- Modelled from the spec: dsmesock_broadcast_with_extra belongs to the
external socket transport; the observable effect is that the message and
extra bytes are handed to the socket layer for delivery to connected
peers. -/
def dsmesock_broadcast_with_extra (st : BusState)
    (msg : Option dsmemsg_generic_t) (extra : List Nat) : BusState :=
  { st with socket_broadcasts := st.socket_broadcasts ++ [(msg, extra)] }

/-- broadcast_with_extra: enqueues the message internally as a broadcast
(recipient NULL) with the currently handling module as sender, then forwards
the same message and extra bytes to the socket layer. -/
def broadcast_with_extra (st : BusState)
    (currently_handling_module : Option module_t)
    (msg : Option dsmemsg_generic_t) (extra : List Nat)
    (alloc1 alloc2 : Bool) : BusState :=
  dsmesock_broadcast_with_extra
    (queue_message st ⟨currently_handling_module, none⟩ none msg extra
       alloc1 alloc2)
    msg extra

/-- broadcast: broadcast_with_extra with no extra bytes. -/
def broadcast (st : BusState) (currently_handling_module : Option module_t)
    (msg : Option dsmemsg_generic_t) (alloc1 alloc2 : Bool) : BusState :=
  broadcast_with_extra st currently_handling_module msg [] alloc1 alloc2

/-- endpoint_same: NULL pointers are never the same; two endpoint values are
the same when the first has a non-NULL module pointer equal to the second's,
or a non-NULL connection pointer equal to the second's. -/
def endpoint_same (a b : Option endpoint_t) : Bool :=
  match a, b with
  | some a, some b =>
    (a.module.isSome && decide (a.module = b.module)) ||
    (a.conn.isSome && decide (a.conn = b.conn))
  | _, _ => false

/-- The callbacks list in effect while a module's fini entry point runs
during unload_module: the module's own registrations have already been
removed. -/
def callbacks_during_fini (st : BusState) (m : module_t) :
    List msg_handler_info_t :=
  remove_msghandlers m st.callbacks

/-- unload_module: fails with -1 leaving the state unchanged when the module
is not in the registry; otherwise removes the module's handler
registrations, runs its fini entry point (finiBeh, with the module as
currently handling module), closes its dlopen handle, frees the record and
deletes it from the module registry. -/
def unload_module (finiBeh : module_t → List EnqueueReq) (st : BusState)
    (m : module_t) : Int × BusState :=
  if m ∈ st.modules then
    let st1 := { st with callbacks := callbacks_during_fini st m }
    let st2 := run_reqs ⟨some m, none⟩ (finiBeh m) st1
    (0, { st2 with modules := st2.modules.erase m,
                   open_handles := st2.open_handles.erase m.handle })
  else (-1, st)

/-- load_module: dlOk models whether dlopen resolves the path (either
form); on success the handle is opened, the module record and its name are
allocated (moduleAllocOk, nameAllocOk), module_init runs (initBeh), the
handler table is registered, and the module is appended to the registry.
Any failure after dlopen takes the error path: remove_msghandlers for the
partially registered handlers, free of the record, dlclose of the handle. -/
def load_module (initBeh : module_t → List EnqueueReq) (st : BusState)
    (filename : String) (priority : Int)
    (dlOk : Bool) (dlhandle : Nat) (moduleAllocOk nameAllocOk : Bool)
    (freshId : Nat) (table : List module_fn_info_t) (allocs : List Bool) :
    Option module_t × BusState :=
  if !dlOk then (none, st)
  else
    let stOpen := { st with open_handles := st.open_handles ++ [dlhandle] }
    if !moduleAllocOk then
      (none, { stOpen with open_handles := stOpen.open_handles.erase dlhandle })
    else
      let m : module_t := ⟨filename, priority, dlhandle, freshId⟩
      if !nameAllocOk then
        (none, { stOpen with
                   callbacks := remove_msghandlers m stOpen.callbacks,
                   open_handles := stOpen.open_handles.erase dlhandle })
      else
        let st1 := run_reqs ⟨some m, none⟩ (initBeh m) stOpen
        match add_msghandlers allocs table m st1.callbacks with
        | (true, cbs2) =>
          (some m, { st1 with callbacks := cbs2,
                              modules := st1.modules ++ [m] })
        | (false, cbs2) =>
          (none, { st1 with callbacks := remove_msghandlers m cbs2,
                            open_handles := st1.open_handles.erase dlhandle })

/-- modulebase_shutdown: while modules remain, drain the message queue and
unload the first remaining module; afterwards one final drain.  Fuel bounds
the drains and iterations as in process_message_queue. -/
def modulebase_shutdown (beh : HandlerBehavior)
    (finiBeh : module_t → List EnqueueReq) :
    Nat → BusState → Option (BusState × List queued_msg_t)
  | 0, _ => none
  | fuel + 1, st =>
    match st.modules with
    | [] => process_message_queue beh fuel st
    | m :: _ =>
      match process_message_queue beh fuel st with
      | none => none
      | some (st1, tr1) =>
        let st2 := (unload_module finiBeh st1 (st1.modules.headD m)).2
        match modulebase_shutdown beh finiBeh fuel st2 with
        | none => none
        | some (st3, tr2) => some (st3, tr1 ++ tr2)

/-- The envelopes a module's fini entry point enqueues when it runs. -/
def fini_envelopes (finiBeh : module_t → List EnqueueReq) (m : module_t) :
    List queued_msg_t :=
  (finiBeh m).flatMap (req_envelope ⟨some m, none⟩)

/-- Concrete module fixture: priority 5. -/
def modA : module_t := { name := "a", priority := 5, handle := 101, id := 1 }

/-- Concrete module fixture: priority 9. -/
def modB : module_t := { name := "b", priority := 9, handle := 102, id := 2 }

/-- Concrete handler fixture: type 7, expected size 16, owned by modA. -/
def cbA : msg_handler_info_t :=
  { msg_type := 7, msg_size := 16, owner := modA, callback := 1 }

/-- Concrete handler fixture: type 7, expected size 16, owned by modB. -/
def cbB : msg_handler_info_t :=
  { msg_type := 7, msg_size := 16, owner := modB, callback := 2 }

/-- Concrete well-formed message of type 7: 12-byte header plus 4 payload
bytes, declared size equal to total size. -/
def msg16 : dsmemsg_generic_t :=
  { line_size_ := 16, size_ := 16, type_ := 7, payload := [1, 2, 3, 4] }

/-- Concrete well-formed message of type 9 (no handler registered). -/
def msg20 : dsmemsg_generic_t :=
  { line_size_ := 16, size_ := 16, type_ := 9, payload := [5, 6, 7, 8] }

/-- Concrete malformed message: total size 4 is below the header size. -/
def msgBad : dsmemsg_generic_t :=
  { line_size_ := 4, size_ := 4, type_ := 7, payload := [] }

/-- Behaviour fixture: callback 1, on a type-7 message, broadcasts msg20;
every other callback enqueues nothing. -/
def behW : HandlerBehavior := fun cb _ m =>
  if cb = 1 ∧ m.type_ = 7 then
    [{ to_ := none, msg := some msg20, extra := [], alloc1 := true,
       alloc2 := true }]
  else []

/-- Behaviour fixture: callbacks that enqueue nothing. -/
def behNone : HandlerBehavior := fun _ _ _ => []

/-- Fini behaviour fixture: modA's finalizer broadcasts msg16, every other
module's finalizer enqueues nothing. -/
def finiBehW : module_t → List EnqueueReq := fun m =>
  if m.id = 1 then
    [{ to_ := none, msg := some msg16, extra := [], alloc1 := true,
       alloc2 := true }]
  else []

/-- Init behaviour fixture: module_init enqueues nothing. -/
def initBehNone : module_t → List EnqueueReq := fun _ => []

/-- Envelope fixture: msg16 broadcast from an external connection. -/
def envW : queued_msg_t :=
  { from_ := { module := none, conn := some 3 }, to_ := none, data := msg16 }

/-- Envelope fixture: msg20 broadcast from modA (produced by callback 1
during the drain of envW). -/
def envW2 : queued_msg_t :=
  { from_ := { module := some modA, conn := none }, to_ := none, data := msg20 }

/-- Envelope fixture: msg16 broadcast from modA (produced by modA's
finalizer during shutdown). -/
def envW3 : queued_msg_t :=
  { from_ := { module := some modA, conn := none }, to_ := none, data := msg16 }

/-- State fixture for the drain scenario: modA loaded with handler cbA and
envW queued. -/
def stW3 : BusState :=
  { modules := [modA], callbacks := [cbA], message_queue := [envW],
    open_handles := [101], socket_broadcasts := [] }

/-- The state after draining stW3: queue empty, registries unchanged. -/
def stW3End : BusState :=
  { modules := [modA], callbacks := [cbA], message_queue := [],
    open_handles := [101], socket_broadcasts := [] }

/-- State fixture for the shutdown scenario: modA and modB loaded, modB
holding handler cbB, queue empty. -/
def stW4 : BusState :=
  { modules := [modA, modB], callbacks := [cbB], message_queue := [],
    open_handles := [101, 102], socket_broadcasts := [] }

/-- The fully shut-down state: everything empty. -/
def stEmpty : BusState :=
  { modules := [], callbacks := [], message_queue := [],
    open_handles := [], socket_broadcasts := [] }

/-- State fixture with only modB loaded, holding handler cbB. -/
def stW5 : BusState :=
  { modules := [modB], callbacks := [cbB], message_queue := [],
    open_handles := [102], socket_broadcasts := [] }

/-- queue_message appends exactly the envelopes req_envelope describes and
touches nothing else in the state. -/
theorem queue_message_eq (st : BusState) (from_ : endpoint_t)
    (r : EnqueueReq) :
    queue_message st from_ r.to_ r.msg r.extra r.alloc1 r.alloc2 =
      { st with message_queue := st.message_queue ++ req_envelope from_ r } := by
  obtain ⟨to_, msg, extra, a1, a2⟩ := r
  cases msg with
  | none => simp [queue_message, req_envelope]
  | some g =>
    simp only [queue_message, req_envelope]
    split
    · simp
    · split
      · simp
      · split
        · simp
        · rfl

/-- run_reqs appends the concatenation of the envelopes of its requests. -/
theorem run_reqs_eq (from_ : endpoint_t) :
    ∀ (reqs : List EnqueueReq) (st : BusState),
    run_reqs from_ reqs st =
      { st with message_queue :=
          st.message_queue ++ reqs.flatMap (req_envelope from_) } := by
  intro reqs
  induction reqs with
  | nil => intro st; simp [run_reqs]
  | cons r rs ih =>
    intro st
    have h1 : run_reqs from_ (r :: rs) st =
        run_reqs from_ rs
          (queue_message st from_ r.to_ r.msg r.extra r.alloc1 r.alloc2) := rfl
    rw [h1, queue_message_eq, ih]
    simp

/-- Folding the invoked handlers' callback effects appends exactly the
concatenation of the envelopes they enqueue. -/
theorem foldl_run_reqs_eq (beh : HandlerBehavior) (from_ : endpoint_t)
    (msg : dsmemsg_generic_t) :
    ∀ (hs : List msg_handler_info_t) (st : BusState),
    hs.foldl (fun s h => run_reqs ⟨some h.owner, none⟩
        (beh h.callback from_ msg) s) st =
      { st with message_queue := st.message_queue ++
          hs.flatMap (fun h => (beh h.callback from_ msg).flatMap
            (req_envelope ⟨some h.owner, none⟩)) } := by
  intro hs
  induction hs with
  | nil => intro st; simp
  | cons h hs ih =>
    intro st
    simp only [List.foldl_cons]
    rw [run_reqs_eq, ih]
    simp

/-- handle_message appends to the queue exactly the envelopes enqueued by
the invoked handlers, and changes nothing else. -/
theorem handle_message_eq (beh : HandlerBehavior) (st : BusState)
    (from_ : endpoint_t) (to_ : Option module_t) (msg : dsmemsg_generic_t) :
    handle_message beh st from_ to_ msg =
      { st with message_queue := st.message_queue ++
          enqueued_by beh st.callbacks from_ to_ msg } := by
  unfold handle_message enqueued_by
  exact foldl_run_reqs_eq beh from_ msg (invoked_handlers st.callbacks to_ msg) st

/-- Full characterization of a terminating process_message_queue run: the
final queue is empty, all registries are untouched, the dispatch trace
starts with the initial queue in FIFO order, and the trace is closed under
the envelopes enqueued by the handlers it invokes. -/
theorem process_message_queue_spec (beh : HandlerBehavior) :
    ∀ (fuel : Nat) (st st2 : BusState) (tr : List queued_msg_t),
    process_message_queue beh fuel st = some (st2, tr) →
      st2.message_queue = [] ∧ st2.callbacks = st.callbacks ∧
      st2.modules = st.modules ∧ st2.open_handles = st.open_handles ∧
      st2.socket_broadcasts = st.socket_broadcasts ∧
      st.message_queue <+: tr ∧
      (∀ m ∈ tr, ∀ e ∈ enqueued_by beh st.callbacks m.from_ m.to_ m.data,
        e ∈ tr) := by
  intro fuel
  induction fuel with
  | zero =>
    intro st st2 tr h
    exact absurd h (by simp [process_message_queue])
  | succ fuel ih =>
    intro st st2 tr h
    rw [process_message_queue] at h
    split at h
    case h_1 heq =>
      rw [Option.some.injEq, Prod.mk.injEq] at h
      obtain ⟨h1, h2⟩ := h
      subst h1; subst h2
      simp [heq]
    case h_2 front rest heq =>
      dsimp only at h
      split at h
      · exact absurd h (by simp)
      case h_2 st3 tr' hrec =>
        rw [Option.some.injEq, Prod.mk.injEq] at h
        obtain ⟨h1, h2⟩ := h
        subst h1; subst h2
        obtain ⟨i1, i2, i3, i4, i5, i6, i7⟩ := ih _ st3 tr' hrec
        simp only [handle_message_eq] at i2 i3 i4 i5 i6 i7
        refine ⟨i1, i2, i3, i4, i5, ?_, ?_⟩
        · rw [heq]
          obtain ⟨t, ht⟩ := (List.prefix_append rest _).trans i6
          exact ⟨t, by rw [List.cons_append, ht]⟩
        · intro m hm e he
          rcases List.mem_cons.mp hm with hmf | hmt
          · have he2 : e ∈ rest ++
                enqueued_by beh st.callbacks front.from_ front.to_ front.data := by
              rw [hmf] at he
              exact List.mem_append_right rest he
            exact List.mem_cons_of_mem front (i6.subset he2)
          · exact List.mem_cons_of_mem front (i7 m hmt e he)

/-- C3: process_message_queue pops envelopes from the head of the FIFO one
at a time, dispatching each, and returns only when the queue is empty; the
dispatch trace starts with the initial queue in FIFO order, and every
envelope enqueued by a handler callback invoked during the drain (including
transitive cascades) is itself dispatched within the same trace before the
drain returns — there is no separate re-entrant drain. -/
theorem process_message_queue_drains_all (beh : HandlerBehavior) (fuel : Nat)
    (st st2 : BusState) (tr : List queued_msg_t)
    (h : process_message_queue beh fuel st = some (st2, tr)) :
    st2.message_queue = [] ∧ st.message_queue <+: tr ∧
    ∀ m ∈ tr, ∀ e ∈ enqueued_by beh st.callbacks m.from_ m.to_ m.data,
      e ∈ tr := by
  obtain ⟨h1, _, _, _, _, h6, h7⟩ := process_message_queue_spec beh fuel st st2 tr h
  exact ⟨h1, h6, h7⟩

/-- Witness for C3 at a concrete cascade: draining stW3 dispatches the
queued envelope envW, whose handler broadcasts msg20; that cascade envelope
envW2 is dispatched in the same drain, and the final queue is empty. -/
theorem process_message_queue_drains_all_witness :
    stW3End.message_queue = [] ∧ stW3.message_queue <+: [envW, envW2] ∧
    envW2 ∈ ([envW, envW2] : List queued_msg_t) :=
  ⟨(process_message_queue_drains_all behW 3 stW3 stW3End [envW, envW2]
      (by decide)).1,
   (process_message_queue_drains_all behW 3 stW3 stW3End [envW, envW2]
      (by decide)).2.1,
   (process_message_queue_drains_all behW 3 stW3 stW3End [envW, envW2]
      (by decide)).2.2 envW (by decide) envW2 (by decide)⟩

/-- C4: modulebase_shutdown alternates drains with unloading the first
remaining module until none remain, then drains once more; on return both
the module registry and the message queue are empty, every initially queued
envelope was dispatched, and every envelope enqueued by any unloaded
module's finalizer during shutdown is dispatched before shutdown returns. -/
theorem modulebase_shutdown_spec (beh : HandlerBehavior)
    (finiBeh : module_t → List EnqueueReq) :
    ∀ (fuel : Nat) (st st2 : BusState) (tr : List queued_msg_t),
    modulebase_shutdown beh finiBeh fuel st = some (st2, tr) →
      st2.modules = [] ∧ st2.message_queue = [] ∧
      (∀ e ∈ st.message_queue, e ∈ tr) ∧
      (∀ m ∈ st.modules, ∀ e ∈ fini_envelopes finiBeh m, e ∈ tr) := by
  intro fuel
  induction fuel with
  | zero =>
    intro st st2 tr h
    exact absurd h (by simp [modulebase_shutdown])
  | succ fuel ih =>
    intro st st2 tr h
    rw [modulebase_shutdown] at h
    split at h
    case h_1 hmods =>
      obtain ⟨h1, _, h3, _, _, h6, _⟩ :=
        process_message_queue_spec beh fuel st st2 tr h
      refine ⟨by rw [h3, hmods], h1, fun e he => h6.subset he, ?_⟩
      intro m hm
      rw [hmods] at hm
      exact absurd hm (List.not_mem_nil m)
    case h_2 m rest hmods =>
      split at h
      · exact absurd h (by simp)
      case h_2 st1 tr1 hdrain =>
        dsimp only at h
        split at h
        · exact absurd h (by simp)
        case h_2 st3 tr2 hrec =>
          rw [Option.some.injEq, Prod.mk.injEq] at h
          obtain ⟨h1, h2⟩ := h
          subst h1; subst h2
          obtain ⟨d1, d2, d3, _, _, d6, _⟩ :=
            process_message_queue_spec beh fuel st st1 tr1 hdrain
          have hhead : st1.modules.headD m = m := by rw [d3, hmods]; rfl
          rw [hhead] at hrec
          have hmem : m ∈ st1.modules := by
            rw [d3, hmods]; exact List.mem_cons_self m rest
          have hun : (unload_module finiBeh st1 m).2 =
              { st1 with
                  modules := rest,
                  callbacks := callbacks_during_fini st1 m,
                  message_queue := fini_envelopes finiBeh m,
                  open_handles := st1.open_handles.erase m.handle } := by
            simp only [unload_module, if_pos hmem, run_reqs_eq]
            rw [d1]
            have herase : st1.modules.erase m = rest := by
              rw [d3, hmods]; exact List.erase_cons_head m rest
            simp [herase, fini_envelopes]
          rw [hun] at hrec
          obtain ⟨s1, s2, s3, s4⟩ := ih _ st3 tr2 hrec
          refine ⟨s1, s2, ?_, ?_⟩
          · intro e he
            exact List.mem_append_left tr2 (d6.subset he)
          · intro mm hmm e he
            rw [hmods] at hmm
            rcases List.mem_cons.mp hmm with hf | ht
            · subst hf
              refine List.mem_append_right tr1 (s3 e ?_)
              simpa using he
            · refine List.mem_append_right tr1 (s4 mm ?_ e he)
              simpa using ht

/-- Witness for C4 at a concrete shutdown: stW4 holds modA and modB, modA's
finalizer broadcasts msg16, which is delivered in the trace (to modB's
handler) before shutdown returns with empty registries and queue. -/
theorem modulebase_shutdown_spec_witness :
    stEmpty.modules = [] ∧ stEmpty.message_queue = [] ∧
    envW3 ∈ ([envW3] : List queued_msg_t) :=
  ⟨(modulebase_shutdown_spec behNone finiBehW 6 stW4 stEmpty [envW3]
      (by decide)).1,
   (modulebase_shutdown_spec behNone finiBehW 6 stW4 stEmpty [envW3]
      (by decide)).2.1,
   (modulebase_shutdown_spec behNone finiBehW 6 stW4 stEmpty [envW3]
      (by decide)).2.2.2 modA (by decide) envW3 (by decide)⟩

/-- The unsigned 32-bit difference of two 32-bit values is zero exactly when
they are equal. -/
theorem u32_diff_eq_zero {a b : Nat} (ha : a < 4294967296)
    (hb : b < 4294967296) :
    ((a % 4294967296 + (4294967296 - b % 4294967296)) % 4294967296 = 0) ↔
      a = b := by
  omega

/-- C2: a handler in the callbacks list is invoked on a dispatched message
exactly when its msg_type equals the message's type id, the recipient is
absent (broadcast) or the handler's owner, the message's total size is at
least the handler's expected size, and the message's declared size equals
the handler's expected size exactly — so a message whose declared size
differs from the expected size is never delivered to that handler even when
the total size passes the inequality. -/
theorem handle_message_delivers_iff (cbs : List msg_handler_info_t)
    (to_ : Option module_t) (msg : dsmemsg_generic_t)
    (h : msg_handler_info_t) (ht : h.msg_type < 4294967296)
    (hm : dsmemsg_id msg < 4294967296) (hcb : h.callback ≠ 0) :
    h ∈ invoked_handlers cbs to_ msg ↔
      h ∈ cbs ∧ h.msg_type = dsmemsg_id msg ∧
      (to_ = none ∨ to_ = some h.owner) ∧
      h.msg_size ≤ msg.line_size_ ∧ msg.size_ = h.msg_size := by
  simp only [invoked_handlers, deliverable, List.mem_filter,
    Bool.and_eq_true, Bool.or_eq_true, decide_eq_true_eq, msg_comparator]
  have hz : ∀ x : Nat, Int.ofNat x = 0 ↔ x = 0 := fun x =>
    ⟨fun hh => Int.ofNat.inj hh, fun hh => by rw [hh]; rfl⟩
  rw [hz, u32_diff_eq_zero ht hm]
  constructor
  · rintro ⟨⟨h1, h2⟩, _, ⟨h4, h5⟩, h6⟩
    exact ⟨h1, h2, h4, h5, h6⟩
  · rintro ⟨h1, h2, h4, h5, h6⟩
    exact ⟨⟨h1, h2⟩, hcb, ⟨h4, h5⟩, h6⟩

/-- Witness for C2: the concrete handler cbA on the broadcast type-7
message msg16 with matching sizes. -/
theorem handle_message_delivers_iff_witness :
    cbA ∈ invoked_handlers [cbA] none msg16 ↔
      cbA ∈ [cbA] ∧ cbA.msg_type = dsmemsg_id msg16 ∧
      ((none : Option module_t) = none ∨
        (none : Option module_t) = some cbA.owner) ∧
      cbA.msg_size ≤ msg16.line_size_ ∧ msg16.size_ = cbA.msg_size :=
  handle_message_delivers_iff [cbA] none msg16 cbA (by decide) (by decide)
    (by decide)

/-- C1: the realized registry order contradicts the claimed invariant. With
GLib's insert-sorted convention, sort_comparator keeps the callbacks list
ascending by msg_type and, within a type, ascending by owner priority:
registering type 1 then type 2 (same owner) yields the type-1 entry first,
and registering a priority-5 owner then a priority-9 owner for the same
type yields the priority-5 entry first — the claimed descending order would
require the opposite in both cases. -/
theorem handler_registry_order_is_ascending :
    add_single_handler true 2 8 7 modA
        [{ msg_type := 1, msg_size := 8, owner := modA, callback := 7 }] =
      some [{ msg_type := 1, msg_size := 8, owner := modA, callback := 7 },
            { msg_type := 2, msg_size := 8, owner := modA, callback := 7 }] ∧
    add_single_handler true 3 8 7 modB
        [{ msg_type := 3, msg_size := 8, owner := modA, callback := 7 }] =
      some [{ msg_type := 3, msg_size := 8, owner := modA, callback := 7 },
            { msg_type := 3, msg_size := 8, owner := modB, callback := 7 }] := by
  constructor <;> rfl

/-- C7: queue_message is a no-op on a NULL message and on a message whose
total size is below the fixed envelope header size; the malformed message
is never enqueued. -/
theorem queue_message_rejects_malformed (st : BusState) (from_ : endpoint_t)
    (to_ : Option module_t) (extra : List Nat) (a1 a2 : Bool) :
    queue_message st from_ to_ none extra a1 a2 = st ∧
    ∀ m : dsmemsg_generic_t, m.line_size_ < dsmemsg_header_size →
      queue_message st from_ to_ (some m) extra a1 a2 = st := by
  refine ⟨rfl, ?_⟩
  intro m hm
  simp [queue_message, hm]

/-- Witness for C7: a NULL message and the concrete 4-byte message msgBad
are both rejected without touching the state. -/
theorem queue_message_rejects_malformed_witness :
    queue_message stW5 { module := none, conn := some 3 } none none [9]
      true true = stW5 ∧
    queue_message stW5 { module := none, conn := some 3 } none (some msgBad)
      [9] true true = stW5 :=
  ⟨(queue_message_rejects_malformed stW5 { module := none, conn := some 3 }
      none [9] true true).1,
   (queue_message_rejects_malformed stW5 { module := none, conn := some 3 }
      none [9] true true).2 msgBad (by decide)⟩

/-- C8: a successful enqueue appends to the FIFO tail exactly one envelope
holding a fresh copy of the message followed by the extra bytes, with
line_size_ increased by the number of extra bytes and size_ and type_
unchanged; nothing else in the state changes. -/
theorem queue_message_appends_extended_copy (st : BusState)
    (from_ : endpoint_t) (to_ : Option module_t) (m : dsmemsg_generic_t)
    (extra : List Nat) (hsz : dsmemsg_header_size ≤ m.line_size_) :
    queue_message st from_ to_ (some m) extra true true =
      { st with message_queue :=
          st.message_queue ++ [⟨from_, to_, msg_copy m extra⟩] } ∧
    (msg_copy m extra).size_ = m.size_ ∧
    (msg_copy m extra).type_ = m.type_ ∧
    (msg_copy m extra).line_size_ = m.line_size_ + extra.length ∧
    (msg_copy m extra).payload = m.payload ++ extra := by
  refine ⟨?_, rfl, rfl, rfl, rfl⟩
  simp [queue_message, Nat.not_lt.mpr hsz]

/-- Witness for C8: enqueuing msg16 with one extra byte appends the
extended copy to the tail. -/
theorem queue_message_appends_extended_copy_witness :
    queue_message stW5 { module := none, conn := some 3 } none (some msg16)
      [9] true true =
      { stW5 with message_queue := stW5.message_queue ++
          [⟨{ module := none, conn := some 3 }, none, msg_copy msg16 [9]⟩] } ∧
    (msg_copy msg16 [9]).size_ = msg16.size_ ∧
    (msg_copy msg16 [9]).type_ = msg16.type_ ∧
    (msg_copy msg16 [9]).line_size_ = msg16.line_size_ + [9].length ∧
    (msg_copy msg16 [9]).payload = msg16.payload ++ [9] :=
  queue_message_appends_extended_copy stW5 { module := none, conn := some 3 }
    none msg16 [9] (by decide)

/-- C9 counterexample: for the empty endpoint (NULL module and NULL
connection pointers) endpoint_same of the endpoint with itself is false,
refuting the claim that same(e, e) holds for every endpoint. -/
theorem endpoint_same_empty_self_false :
    endpoint_same (some { module := none, conn := none })
      (some { module := none, conn := none }) = false := by
  rfl

/-- C9 amended: for every endpoint that references a module or a connection
(i.e. every non-empty endpoint) same(e, e) is true, and a module endpoint
is never the same as a connection endpoint regardless of the underlying
identity values. -/
theorem endpoint_same_refl_and_cross_kind (a : endpoint_t)
    (ha : a.module.isSome ∨ a.conn.isSome) :
    endpoint_same (some a) (some a) = true ∧
    ∀ (m : module_t) (c : Nat),
      endpoint_same (some { module := some m, conn := none })
        (some { module := none, conn := some c }) = false := by
  constructor
  · rcases ha with hmod | hconn
    · simp [endpoint_same, hmod]
    · simp [endpoint_same, hconn]
  · intro m c
    rfl

/-- Witness for the amended C9 at the concrete module endpoint of modA. -/
theorem endpoint_same_refl_and_cross_kind_witness :
    endpoint_same (some { module := some modA, conn := none })
      (some { module := some modA, conn := none }) = true :=
  (endpoint_same_refl_and_cross_kind { module := some modA, conn := none }
    (by decide)).1

/-- C10: broadcast msg is exactly broadcast_with_extra msg with zero-length
extra, and in particular every plain broadcast is also forwarded to the
external socket layer. -/
theorem broadcast_eq_broadcast_with_extra_nil (st : BusState)
    (cur : Option module_t) (msg : Option dsmemsg_generic_t) (a1 a2 : Bool) :
    broadcast st cur msg a1 a2 = broadcast_with_extra st cur msg [] a1 a2 ∧
    (broadcast st cur msg a1 a2).socket_broadcasts =
      st.socket_broadcasts ++ [(msg, [])] := by
  refine ⟨rfl, ?_⟩
  have h1 : broadcast st cur msg a1 a2 =
      dsmesock_broadcast_with_extra
        (queue_message st ⟨cur, none⟩ none msg [] a1 a2) msg [] := rfl
  rw [h1, queue_message_eq st ⟨cur, none⟩
    ⟨none, msg, [], a1, a2⟩]
  rfl

/-- Filtering away elements the predicate rejects commutes with a sorted
insertion of such an element. -/
theorem filter_insert_sorted (p : α → Bool) (x : α) (cmp : α → α → Int)
    (hx : p x = false) :
    ∀ l : List α, (g_slist_insert_sorted_with_data l x cmp).filter p =
      l.filter p := by
  intro l
  induction l with
  | nil => simp [g_slist_insert_sorted_with_data, hx]
  | cons y ys ih =>
    simp only [g_slist_insert_sorted_with_data]
    split
    · simp [List.filter_cons, hx]
    · simp [List.filter_cons, ih]

/-- Removing a module's registrations after a (possibly failed)
add_msghandlers run for that module gives the same result as removing them
from the original list: every insertion it performed is owned by the
module. -/
theorem add_msghandlers_filter (m : module_t) :
    ∀ (table : List module_fn_info_t) (allocs : List Bool)
      (cbs : List msg_handler_info_t),
    remove_msghandlers m (add_msghandlers allocs table m cbs).2 =
      remove_msghandlers m cbs := by
  intro table
  induction table with
  | nil => intro allocs cbs; rfl
  | cons e es ih =>
    intro allocs cbs
    rw [add_msghandlers, add_single_handler]
    cases allocs.headD true with
    | false => rfl
    | true =>
      show remove_msghandlers m (add_msghandlers allocs.tail es m
          (g_slist_insert_sorted_with_data cbs
            ⟨e.msg_type, e.msg_size, m, e.callback⟩ sort_comparator)).2 =
        remove_msghandlers m cbs
      rw [ih]
      unfold remove_msghandlers
      rw [filter_insert_sorted _ _ _ (by simp)]

/-- remove_msghandlers is the identity on a list with no registration owned
by the module. -/
theorem remove_msghandlers_eq_self (m : module_t)
    (cbs : List msg_handler_info_t) (h : ∀ x ∈ cbs, x.owner ≠ m) :
    remove_msghandlers m cbs = cbs := by
  unfold remove_msghandlers
  exact List.filter_eq_self.mpr fun x hx => by simpa using h x hx

/-- Appending a fresh element and erasing it restores the original list. -/
theorem erase_append_singleton (l : List Nat) (a : Nat) (h : a ∉ l) :
    (l ++ [a]).erase a = l := by
  rw [List.erase_append_right _ h, List.erase_cons_head]
  simp

/-- C5: when registering the handler table fails (any add_single_handler
failure), load_module returns an error and rolls back completely: the
handler registry is exactly as before the load, the module registry is
unchanged (the module is never appended), and the dlopen handle is closed
again.  The hypotheses state that the module record is fresh — no existing
registration is owned by it and its handle is not already open — and that
registration fails. -/
theorem load_module_registration_rollback
    (initBeh : module_t → List EnqueueReq) (st : BusState)
    (filename : String) (priority : Int) (dlhandle freshId : Nat)
    (table : List module_fn_info_t) (allocs : List Bool)
    (hfresh : ∀ h ∈ st.callbacks, h.owner ≠
      ({ name := filename, priority := priority, handle := dlhandle,
         id := freshId } : module_t))
    (hhandle : dlhandle ∉ st.open_handles)
    (hfail : (add_msghandlers allocs table
      { name := filename, priority := priority, handle := dlhandle,
        id := freshId } st.callbacks).1 = false) :
    (load_module initBeh st filename priority true dlhandle true true freshId
      table allocs).1 = none ∧
    (load_module initBeh st filename priority true dlhandle true true freshId
      table allocs).2.callbacks = st.callbacks ∧
    (load_module initBeh st filename priority true dlhandle true true freshId
      table allocs).2.modules = st.modules ∧
    (load_module initBeh st filename priority true dlhandle true true freshId
      table allocs).2.open_handles = st.open_handles := by
  have hlm :
      load_module initBeh st filename priority true dlhandle true true freshId
        table allocs =
      (fun st1 : BusState =>
        match add_msghandlers allocs table
            ⟨filename, priority, dlhandle, freshId⟩ st1.callbacks with
        | (true, cbs2) =>
          (some (⟨filename, priority, dlhandle, freshId⟩ : module_t),
           { st1 with callbacks := cbs2,
                      modules := st1.modules ++
                        [⟨filename, priority, dlhandle, freshId⟩] })
        | (false, cbs2) =>
          (none,
           { st1 with
               callbacks := remove_msghandlers
                 ⟨filename, priority, dlhandle, freshId⟩ cbs2,
               open_handles := st1.open_handles.erase dlhandle }))
        (run_reqs ⟨some ⟨filename, priority, dlhandle, freshId⟩, none⟩
          (initBeh ⟨filename, priority, dlhandle, freshId⟩)
          { st with open_handles := st.open_handles ++ [dlhandle] }) := rfl
  rw [run_reqs_eq] at hlm
  dsimp only at hlm
  have hfilter := add_msghandlers_filter
    (⟨filename, priority, dlhandle, freshId⟩ : module_t) table allocs
    st.callbacks
  rcases hadd : add_msghandlers allocs table
      (⟨filename, priority, dlhandle, freshId⟩ : module_t) st.callbacks
    with ⟨ok, cbs2⟩
  rw [hadd] at hlm hfail hfilter
  have hok : ok = false := hfail
  subst hok
  rw [hlm]
  dsimp only
  have hcbs : remove_msghandlers
      (⟨filename, priority, dlhandle, freshId⟩ : module_t) cbs2 =
      st.callbacks := by
    rw [hfilter]
    exact remove_msghandlers_eq_self _ _ hfresh
  exact ⟨rfl, hcbs, rfl, erase_append_singleton st.open_handles dlhandle hhandle⟩

/-- Witness for C5: loading a module whose single-entry handler table hits
an allocation failure rolls stW5 back exactly. -/
theorem load_module_registration_rollback_witness :
    (load_module initBehNone stW5 "a" 5 true 101 true true 1
      [⟨7, 16, 1⟩] [false]).1 = none ∧
    (load_module initBehNone stW5 "a" 5 true 101 true true 1
      [⟨7, 16, 1⟩] [false]).2.callbacks = stW5.callbacks ∧
    (load_module initBehNone stW5 "a" 5 true 101 true true 1
      [⟨7, 16, 1⟩] [false]).2.modules = stW5.modules ∧
    (load_module initBehNone stW5 "a" 5 true 101 true true 1
      [⟨7, 16, 1⟩] [false]).2.open_handles = stW5.open_handles :=
  load_module_registration_rollback initBehNone stW5 "a" 5 101 1
    [⟨7, 16, 1⟩] [false] (by decide) (by decide) (by decide)

/-- C6: unload_module fails with -1 and changes no state when the module is
not registered; otherwise it succeeds, the module is removed from the
registry, no registration owned by it survives, and the callbacks list in
effect while its finalizer runs already contains no registration owned by
it (handlers are removed strictly before finalization). -/
theorem unload_module_unregisters_before_fini
    (finiBeh : module_t → List EnqueueReq) (st : BusState) (m : module_t) :
    (m ∉ st.modules → unload_module finiBeh st m = (-1, st)) ∧
    (m ∈ st.modules →
      (unload_module finiBeh st m).1 = 0 ∧
      (unload_module finiBeh st m).2.modules = st.modules.erase m ∧
      (∀ h ∈ (unload_module finiBeh st m).2.callbacks, h.owner ≠ m) ∧
      (∀ h ∈ callbacks_during_fini st m, h.owner ≠ m) ∧
      (st.modules.Nodup → m ∉ (unload_module finiBeh st m).2.modules)) := by
  constructor
  · intro hne
    simp [unload_module, hne]
  · intro hmem
    have hun : unload_module finiBeh st m =
        (0, { st with
                modules := st.modules.erase m,
                callbacks := callbacks_during_fini st m,
                message_queue := st.message_queue ++ fini_envelopes finiBeh m,
                open_handles := st.open_handles.erase m.handle }) := by
      simp only [unload_module, if_pos hmem, run_reqs_eq]
      rfl
    have hnotown : ∀ h ∈ callbacks_during_fini st m, h.owner ≠ m := by
      intro h hh
      have := List.mem_filter.mp hh
      simpa using this.2
    refine ⟨by rw [hun], by rw [hun], ?_, hnotown, ?_⟩
    · intro h hh
      rw [hun] at hh
      exact hnotown h hh
    · intro hnd
      rw [hun]
      exact hnd.not_mem_erase

/-- Witness for C6: unloading modA (not loaded) from stW5 fails and leaves
the state untouched; unloading modB succeeds and removes it from the
registry. -/
theorem unload_module_unregisters_before_fini_witness :
    unload_module finiBehW stW5 modA = (-1, stW5) ∧
    (unload_module finiBehW stW5 modB).1 = 0 ∧
    (unload_module finiBehW stW5 modB).2.modules = stW5.modules.erase modB :=
  ⟨(unload_module_unregisters_before_fini finiBehW stW5 modA).1 (by decide),
   ((unload_module_unregisters_before_fini finiBehW stW5 modB).2
      (by decide)).1,
   ((unload_module_unregisters_before_fini finiBehW stW5 modB).2
      (by decide)).2.1⟩
